/-
  Verification of the MagmaConnect nearest-node selection plugin.

  Shallow embedding of the plugin's data model and operations: coordinates,
  the static region table, target-location resolution, haversine distance,
  nearest-node selection, endpoint region parsing, the external geo lookup
  client, the patched create entry point, and the load/unload lifecycle.

  Modelling conventions: JavaScript numbers are real numbers, `undefined`
  is `Option.none`, a promise is an explicit constructor carrying its
  eventual value, a thrown exception is `Except.error`, and the `Map`
  caches are association lists whose `set` prepends after erasing the key.
-/
import Mathlib

set_option maxHeartbeats 1000000

/-- Geographic coordinate in decimal degrees (source type `LatLon`). -/
@[ext]
structure LatLon where
  lat : ℝ
  lon : ℝ

/-- The slice of a node's `NodeOptions` that selection reads:
the optional explicit identifier and the host string. -/
structure Node where
  identifier : Option String
  host : String
deriving DecidableEq

/-- The Node Key: `n.options.identifier ?? n.options.host`
(`??` takes the right operand exactly when the left is null/undefined). -/
def nodeKey (n : Node) : String := n.identifier.getD n.host

/-- Degrees to radians (`toRad` inside `haversineKm`). -/
noncomputable def toRad (x : ℝ) : ℝ := x * Real.pi / 180

/-- Great-circle distance of the source's `haversineKm`, with the local
`let`s of the source inlined (R = 6371 km; `Math.min(1, Math.sqrt h)`
guards the argument of `asin`). -/
noncomputable def haversineKm (a b : LatLon) : ℝ :=
  2 * 6371 * Real.arcsin (min 1 (Real.sqrt
    (Real.sin (toRad (b.lat - a.lat) / 2) * Real.sin (toRad (b.lat - a.lat) / 2) +
      Real.cos (toRad a.lat) * Real.cos (toRad b.lat) *
        Real.sin (toRad (b.lon - a.lon) / 2) * Real.sin (toRad (b.lon - a.lon) / 2))))

/-- One iteration of the `for (const n of nodes)` minimum-tracking loop of
`pickBestNodeIdentifier`: nodes without a cached coordinate are skipped,
a strictly smaller distance replaces the running best (ties keep the
earlier node). -/
noncomputable def bestStep (loc : LatLon) (nodeGeo : String → Option LatLon)
    (best : Option (String × ℝ)) (n : Node) : Option (String × ℝ) :=
  match nodeGeo (nodeKey n) with
  | none => best
  | some ll =>
    match best with
    | none => some (nodeKey n, haversineKm loc ll)
    | some b =>
      if haversineKm loc ll < b.2 then some (nodeKey n, haversineKm loc ll) else some b

/-- Selection, `pickBestNodeIdentifier`.  Here `target` is the value of
`resolveSyncOrAsync(getTarget())`; `selfGeo` the cached self-location that
`getSelfLocationCached()` returns synchronously.  The source's
fire-and-forget `void this.resolveNodeLocation(...)` loop only schedules
asynchronous cache writes and has no effect on the returned value, so it
is not part of this pure function. -/
noncomputable def pickBestNodeIdentifier (nodes : List Node)
    (nodeGeo : String → Option LatLon) (target selfGeo : Option LatLon) : Option String :=
  if nodes.isEmpty then none
  else
    match (match target with | some t => some t | none => selfGeo) with
    | none => nodes.head?.map nodeKey
    | some loc =>
      match nodes.foldl (bestStep loc nodeGeo) none with
      | some b => some b.1
      | none => nodes.head?.map nodeKey

/-- ASCII lowercasing of `region.toLowerCase()` (all table keys are ASCII). -/
def jsToLower (s : String) : String := ⟨s.data.map Char.toLower⟩

/-- The static region table of `regionToLatLon`: the full `map` literal of
the source, looked up at the lowercased key; an absent key is `undefined`. -/
noncomputable def regionToLatLon (region : String) : Option LatLon :=
  let key := jsToLower region
  if key = "us-east" then some ⟨39.0, -77.0⟩
  else if key = "us-west" then some ⟨37.4, -122.0⟩
  else if key = "us-central" then some ⟨41.6, -93.6⟩
  else if key = "us-south" then some ⟨29.4, -98.5⟩
  else if key = "brazil" then some ⟨-23.5, -46.6⟩
  else if key = "singapore" then some ⟨1.29, 103.85⟩
  else if key = "hongkong" then some ⟨22.32, 114.17⟩
  else if key = "hong-kong" then some ⟨22.32, 114.17⟩
  else if key = "russia" then some ⟨55.75, 37.62⟩
  else if key = "europe" then some ⟨50.11, 8.68⟩
  else if key = "eu-central" then some ⟨50.11, 8.68⟩
  else if key = "eu-west" then some ⟨48.86, 2.35⟩
  else if key = "sydney" then some ⟨-33.86, 151.21⟩
  else if key = "japan" then some ⟨35.68, 139.69⟩
  else if key = "india" then some ⟨19.08, 72.88⟩
  else if key = "southafrica" then some ⟨-26.2, 28.04⟩
  else if key = "south-africa" then some ⟨-26.2, 28.04⟩
  else if key = "dubai" then some ⟨25.2, 55.27⟩
  else if key = "frankfurt" then some ⟨50.11, 8.68⟩
  else if key = "london" then some ⟨51.51, -0.13⟩
  else if key = "amsterdam" then some ⟨52.37, 4.9⟩
  else if key = "mumbai" then some ⟨19.08, 72.88⟩
  else if key = "chicago" then some ⟨41.88, -87.62⟩
  else if key = "atlanta" then some ⟨33.75, -84.39⟩
  else if key = "dallas" then some ⟨32.78, -96.8⟩
  else if key = "miami" then some ⟨25.77, -80.19⟩
  else if key = "newyork" then some ⟨40.71, -74.01⟩
  else if key = "new-york" then some ⟨40.71, -74.01⟩
  else if key = "paris" then some ⟨48.86, 2.35⟩
  else if key = "stockholm" then some ⟨59.33, 18.06⟩
  else if key = "seoul" then some ⟨37.57, 126.98⟩
  else if key = "toronto" then some ⟨43.65, -79.38⟩
  else if key = "montreal" then some ⟨45.5, -73.57⟩
  else none

/-- A caller-supplied location: a literal coordinate (`'lat' in v`) or a
region-code wrapper, the type `LatLon | { region: string }`. -/
inductive LocOrRegion
  | loc (v : LatLon)
  | region (r : String)

/-- Normalization, `normalizeLoc`: a literal coordinate passes through, a region wrapper
goes through the region table. -/
noncomputable def normalizeLoc (v : LocOrRegion) : Option LatLon :=
  match v with
  | .loc c => some c
  | .region r => regionToLatLon r

/-- The resolution chain of `getTargetForGuild` (awaited context).
`guildGeo` is the guild's entry in the guild cache; `resolver` is
`options.getGuildLocation`: `none` when not configured, `some r` when
configured and its awaited call returned `r`; `selfGeo` is the cached
self-location that `getSelfLocationCached()` returns.  Note the source
returns `normalizeLoc(v)` directly whenever the resolver returned a truthy
value `v` — it does not fall through to the self-location when that
normalization comes back undefined. -/
noncomputable def getTargetForGuild (guildGeo : Option LatLon)
    (resolver : Option (Option LocOrRegion)) (selfGeo : Option LatLon) : Option LatLon :=
  match guildGeo with
  | some cached => some cached
  | none =>
    match resolver with
    | some (some v) => normalizeLoc v
    | some none => selfGeo
    | none => selfGeo

/-- A value of type `T | Promise<T> | undefined` as `resolveSyncOrAsync`
receives it: either a plain (possibly undefined) value, or a promise that
will eventually resolve to the carried value. -/
inductive SyncOrAsync (α : Type)
  | sync (v : Option α)
  | promise (eventual : Option α)

/-- The helper `resolveSyncOrAsync`: a thenable (promise) is discarded — `undefined` —
to avoid blocking a synchronous path; anything else passes through. -/
def resolveSyncOrAsync {α : Type} : SyncOrAsync α → Option α
  | .sync v => v
  | .promise _ => none

/-- The value of `getTarget()` inside the patched `manager.create`:
`getTargetForGuild` is an `async` arrow function, so calling it returns a
`Promise` even when its body resolves immediately from the guild cache. -/
noncomputable def getTargetForGuildCall (guildGeo : Option LatLon)
    (resolver : Option (Option LocOrRegion)) (selfGeo : Option LatLon) : SyncOrAsync LatLon :=
  .promise (getTargetForGuild guildGeo resolver selfGeo)

/-- JavaScript `String.prototype.split` at a single-character separator,
on the character list: `[] ↦ [[]]`, so `"".split(c) = [""]` and a
trailing separator yields a trailing empty segment, as in JS. -/
def splitChar (c : Char) : List Char → List (List Char)
  | [] => [[]]
  | x :: rest =>
    match splitChar c rest with
    | [] => [[x]]
    | h :: t => if x = c then [] :: h :: t else (x :: h) :: t

/-- JS `s.split(c)` for a one-character separator `c`. -/
def jsSplit (s : String) (c : Char) : List String :=
  (splitChar c s.data).map String.mk

/-- Removal of the maximal trailing run of decimal digits,
`first.replace(/\d+$/, '')`, on the character list. -/
def dropTrailingDigits (cs : List Char) : List Char :=
  (cs.reverse.dropWhile Char.isDigit).reverse

/-- The same trailing-digit removal on strings. -/
def stripTrailingDigits (s : String) : String := ⟨dropTrailingDigits s.data⟩

/-- The parser `parseDiscordRegionFromEndpoint`: strip the port suffix, split the
hostname on dots, require at least three segments, drop the first
segment's trailing digits, and turn an empty remainder into `undefined`
(`region || undefined`). -/
def parseDiscordRegionFromEndpoint (endpoint : String) : Option String :=
  let host := (jsSplit endpoint ':').headD ""
  let parts := jsSplit host '.'
  if parts.length < 3 then none
  else
    let first := parts.headD ""
    let region := stripTrailingDigits first
    if region = "" then none else some region

/-- A parsed JSON value as `fetchJson` can resolve with (JSON.parse output;
an empty body resolves with the empty object). -/
inductive Json
  | null
  | bool (b : Bool)
  | num (q : ℚ)
  | str (s : String)
  | arr (elems : List Json)
  | obj (fields : List (String × Json))

/-- JavaScript truthiness of a parsed JSON value. -/
def Json.truthy : Json → Bool
  | .null => false
  | .bool b => b
  | .num q => q != 0
  | .str s => s != ""
  | .arr _ => true
  | .obj _ => true

/-- Whether the value is a legal right operand of the `in` operator
(an object or an array); `in` on a primitive throws a TypeError. -/
def Json.isObjectLike : Json → Bool
  | .arr _ => true
  | .obj _ => true
  | _ => false

/-- First binding of a key in an object's field list. -/
def lookupField : List (String × Json) → String → Option Json
  | [], _ => none
  | (k, v) :: rest, key => if k = key then some v else lookupField rest key

/-- Property access `data.k`: a missing key (and any access on an array)
is `undefined`. -/
def Json.getField : Json → String → Option Json
  | .obj fs, k => lookupField fs k
  | _, _ => none

/-- The `in` operator on an object-like value. -/
def Json.hasField (j : Json) (k : String) : Bool := (j.getField k).isSome

/-- Truthiness of a property-access result (`undefined` is falsy). -/
def truthyField : Option Json → Bool
  | none => false
  | some j => j.truthy

/-- The check `typeof data.k === 'number'`. -/
def isNumField : Option Json → Bool
  | some (Json.num _) => true
  | _ => false

/-- The numeric value of a field; only read under an `isNumField` guard. -/
noncomputable def numField : Option Json → ℝ
  | some (Json.num q) => (q : ℝ)
  | _ => 0

/-- The check `data.k === s` (strict equality against a string literal). -/
def strEqField : Option Json → String → Bool
  | some (Json.str t), s => t == s
  | _, _ => false

/-- Outcome of one provider iteration of `geoByHost`'s `for` loop. -/
inductive AttemptResult
  | found (c : LatLon)
  | fallthrough
  | thrown (msg : String)

/-- One iteration of `geoByHost`'s provider loop.  The input is the value
of `await this.fetchJson(url, 4500).catch(() => undefined)`: `none` when
the fetch rejected (timeout, HTTP >= 400, connection error, JSON parse
error), otherwise the parsed payload.  A falsy payload fails the `!data`
guard and falls through; `'success' in data` on a truthy primitive throws
a TypeError; otherwise the two provider shapes are checked field by
field. -/
noncomputable def providerAttempt (data : Option Json) : AttemptResult :=
  match data with
  | none => .fallthrough
  | some j =>
    if !j.truthy then .fallthrough
    else if !j.isObjectLike then
      .thrown "TypeError: cannot use in operator to search for success in a primitive"
    else if j.hasField "success" && truthyField (j.getField "success") &&
        isNumField (j.getField "latitude") && isNumField (j.getField "longitude") then
      .found ⟨numField (j.getField "latitude"), numField (j.getField "longitude")⟩
    else if j.hasField "status" && strEqField (j.getField "status") "success" &&
        isNumField (j.getField "lat") && isNumField (j.getField "lon") then
      .found ⟨numField (j.getField "lat"), numField (j.getField "lon")⟩
    else .fallthrough

/-- The lookup `geoByHost`, over the two providers' fetch outcomes in their fixed
order (ipwho.is, then ip-api.com).  An uncaught throw inside the loop
rejects `geoByHost`'s own promise, modelled as `Except.error`. -/
noncomputable def geoByHost (r1 r2 : Option Json) : Except String (Option LatLon) :=
  match providerAttempt r1 with
  | .found c => .ok (some c)
  | .thrown e => .error e
  | .fallthrough =>
    match providerAttempt r2 with
    | .found c => .ok (some c)
    | .thrown e => .error e
    | .fallthrough => .ok none

/-- A fetch outcome whose payload, if any, is falsy or object-like: the
shapes for which the `in` operator cannot throw. -/
def safeForIn : Option Json → Bool
  | none => true
  | some j => !j.truthy || j.isObjectLike

/-- The slice of `PlayerOptions` the patched create distinguishes:
`guildId`, the optional `nodeIdentifier`, and all remaining fields
(carried opaquely by `rest`, spread-copied unchanged). -/
structure PlayerOptions (σ : Type) where
  guildId : String
  nodeIdentifier : Option String
  rest : σ
deriving DecidableEq

/-- JS truthiness of `string | undefined` (the empty string is falsy). -/
def jsTruthyStrOpt : Option String → Bool
  | none => false
  | some s => s != ""

/-- The options transformation of the patched `manager.create`:
`patched = { ...opts }`; when `!patched.nodeIdentifier`, selection runs and
a truthy result is written into `patched.nodeIdentifier`; the original
create receives `patched`.  `pickResult` is what `pickBestNodeIdentifier`
returned. -/
def patchedCreateOpts {σ : Type} (pickResult : Option String)
    (opts : PlayerOptions σ) : PlayerOptions σ :=
  if jsTruthyStrOpt opts.nodeIdentifier then opts
  else
    match pickResult with
    | some id => if id = "" then opts else { opts with nodeIdentifier := some id }
    | none => opts

/-- The plugin-plus-manager state the load/unload lifecycle touches.
`F` and `G` are the (opaque) types of the manager's `create` and
`updateVoiceState` functions.  `managerCreate`/`managerUpdateVoiceState`
are the manager's current entry points; `originalCreate` and
`originalUpdateVoiceState` the captures the plugin stores before
patching; `timerActive` whether the refresh interval timer is running;
`nodeGeo`, `guildGeo` and `selfGeo` the three caches. -/
structure EngineState (F G : Type) where
  managerCreate : F
  managerUpdateVoiceState : G
  hasManager : Bool
  originalCreate : Option F
  originalUpdateVoiceState : Option G
  timerActive : Bool
  nodeGeo : List (String × LatLon)
  guildGeo : List (String × LatLon)
  selfGeo : Option LatLon

/-- Semantics of `Map.set`: bind the key, replacing any previous binding. -/
def mapSet (m : List (String × LatLon)) (k : String) (v : LatLon) :
    List (String × LatLon) :=
  (k, v) :: m.filter (fun p => p.1 != k)

/-- Lifecycle `load`: store the manager, capture the two entry points, install the
patched ones, and start the refresh timer when an interval is configured
(`refreshEnabled`); the asynchronous first refresh pass only performs
cache writes, modelled by `CacheStep` below. -/
def load {F G : Type} (patchedC : F) (patchedU : G) (refreshEnabled : Bool)
    (s : EngineState F G) : EngineState F G :=
  { s with
      hasManager := true
      originalCreate := some s.managerCreate
      originalUpdateVoiceState := some s.managerUpdateVoiceState
      managerCreate := patchedC
      managerUpdateVoiceState := patchedU
      timerActive := if refreshEnabled then true else s.timerActive }

/-- Lifecycle `unload`: clear the interval timer, then restore each captured entry
point when both the manager and the capture are present. -/
def unload {F G : Type} (s : EngineState F G) : EngineState F G :=
  let s1 : EngineState F G := { s with timerActive := false }
  let s2 : EngineState F G :=
    match s1.hasManager, s1.originalCreate with
    | true, some c => { s1 with managerCreate := c }
    | _, _ => s1
  match s2.hasManager, s2.originalUpdateVoiceState with
  | true, some u => { s2 with managerUpdateVoiceState := u }
  | _, _ => s2

/-- A background cache write: node-location resolution, a captured guild
region hint, or self-location resolution.  These are the only state
changes between load and unload that the engine itself performs. -/
inductive CacheStep {F G : Type} : EngineState F G → EngineState F G → Prop
  | nodeWrite (t : EngineState F G) (k : String) (v : LatLon) :
      CacheStep t { t with nodeGeo := mapSet t.nodeGeo k v }
  | guildWrite (t : EngineState F G) (k : String) (v : LatLon) :
      CacheStep t { t with guildGeo := mapSet t.guildGeo k v }
  | selfWrite (t : EngineState F G) (v : LatLon) :
      CacheStep t { t with selfGeo := some v }

/-- States reachable from a given state by background cache writes. -/
def EngineReach {F G : Type} : EngineState F G → EngineState F G → Prop :=
  Relation.ReflTransGen CacheStep

/-- C1 counterexample: with no cached guild coordinate, a configured
resolver that returns the unknown region code "nowhere", and a cached
self-location ⟨1, 2⟩, `getTargetForGuild` returns `undefined` — it does
not fall through to the self-location as the claim states. -/
theorem c1_counterexample_unknown_region_no_self_fallback :
    getTargetForGuild none (some (some (.region "nowhere"))) (some ⟨1, 2⟩) = none ∧
      getTargetForGuild none (some (some (.region "nowhere"))) (some ⟨1, 2⟩) ≠
        some (⟨1, 2⟩ : LatLon) := by
  constructor
  · rfl
  · intro h
    rw [show getTargetForGuild none (some (some (.region "nowhere"))) (some ⟨1, 2⟩) =
      none from rfl] at h
    exact Option.noConfusion h

/-- C1 (amended): the resolution chain of `getTargetForGuild` tries the
cached guild coordinate first, then the configured resolver, then the
self-location; the self-location fallback is reached exactly when the
cache misses and the resolver is unconfigured or returned `undefined` —
when the resolver returned a value, its normalization (which is
`undefined` for a region code with no table entry) is the result, with no
self-location fallback. -/
theorem c1_target_resolution_chain (c : LatLon) (v : LocOrRegion)
    (resolver : Option (Option LocOrRegion)) (selfGeo : Option LatLon) :
    getTargetForGuild (some c) resolver selfGeo = some c ∧
      getTargetForGuild none (some (some v)) selfGeo = normalizeLoc v ∧
      getTargetForGuild none (some none) selfGeo = selfGeo ∧
      getTargetForGuild none none selfGeo = selfGeo :=
  ⟨rfl, rfl, rfl, rfl⟩

/-- C2: in the patched `manager.create`, the target thunk calls the
`async` function `getTargetForGuild`, so `resolveSyncOrAsync` always
receives a promise and discards it — even when the guild's coordinate
already sits in the guild cache — and selection therefore always runs
with an absent target, i.e. against the cached self-location only. -/
theorem c2_create_target_always_discarded (guildGeo : Option LatLon)
    (resolver : Option (Option LocOrRegion)) (selfGeo : Option LatLon)
    (nodes : List Node) (nodeGeo : String → Option LatLon) :
    resolveSyncOrAsync (getTargetForGuildCall guildGeo resolver selfGeo) = none ∧
      pickBestNodeIdentifier nodes nodeGeo
          (resolveSyncOrAsync (getTargetForGuildCall guildGeo resolver selfGeo)) selfGeo =
        pickBestNodeIdentifier nodes nodeGeo none selfGeo :=
  ⟨rfl, rfl⟩

/-- A pushed character makes a string non-empty. -/
theorem push_ne_empty (s : String) (c : Char) : s.push c ≠ "" := by
  intro h
  have : s.data ++ [c] = [] := congrArg String.data h
  simp at this

/-- C9 counterexample: a caller-supplied empty-string `nodeIdentifier` is
falsy, so the patched create overwrites it with the selection result —
the original create does not receive the caller's options unchanged even
though a `nodeIdentifier` was supplied. -/
theorem c9_counterexample_empty_identifier_overwritten :
    patchedCreateOpts (σ := Unit) (some "us") ⟨"g", some "", ()⟩ =
        (⟨"g", some "us", ()⟩ : PlayerOptions Unit) ∧
      (⟨"g", some "", ()⟩ : PlayerOptions Unit).nodeIdentifier ≠ none := by
  refine ⟨rfl, ?_⟩
  simp

/-- Both branches of the patched create leave every field other than
`nodeIdentifier` unchanged. -/
theorem patchedCreateOpts_frame {σ : Type} (pr : Option String)
    (opts : PlayerOptions σ) :
    (patchedCreateOpts pr opts).guildId = opts.guildId ∧
      (patchedCreateOpts pr opts).rest = opts.rest := by
  unfold patchedCreateOpts
  split
  · exact ⟨rfl, rfl⟩
  · cases pr with
    | none => exact ⟨rfl, rfl⟩
    | some id =>
      dsimp only
      split
      · exact ⟨rfl, rfl⟩
      · exact ⟨rfl, rfl⟩

/-- C9 (amended): the patched create injects the selection result exactly
when the caller's `nodeIdentifier` is JS-falsy — absent or the empty
string — and the selection returned a non-empty key; a non-empty
caller-supplied identifier passes through untouched, an absent or
empty-string selection result injects nothing, and in every case all
fields other than `nodeIdentifier` reach the original create unchanged. -/
theorem c9_create_injects_only_on_falsy_identifier (σ : Type)
    (pr : Option String) (opts : PlayerOptions σ) (g : String) (r : σ)
    (s : String) (c : Char) :
    (patchedCreateOpts pr opts).guildId = opts.guildId ∧
      (patchedCreateOpts pr opts).rest = opts.rest ∧
      patchedCreateOpts pr ⟨g, some (s.push c), r⟩ = ⟨g, some (s.push c), r⟩ ∧
      patchedCreateOpts (some (s.push c)) ⟨g, none, r⟩ = ⟨g, some (s.push c), r⟩ ∧
      patchedCreateOpts (some (s.push c)) ⟨g, some "", r⟩ = ⟨g, some (s.push c), r⟩ ∧
      patchedCreateOpts none ⟨g, none, r⟩ = ⟨g, none, r⟩ ∧
      patchedCreateOpts (some "") ⟨g, none, r⟩ = ⟨g, none, r⟩ := by
  have hne := push_ne_empty s c
  refine ⟨(patchedCreateOpts_frame pr opts).1, (patchedCreateOpts_frame pr opts).2,
    ?_, ?_, ?_, rfl, rfl⟩
  · simp [patchedCreateOpts, jsTruthyStrOpt, hne]
  · simp [patchedCreateOpts, jsTruthyStrOpt, hne]
  · simp [patchedCreateOpts, jsTruthyStrOpt, hne]

/-- Any best-candidate the selection loop produces is keyed by a node it
visited (or was already the accumulator). -/
theorem foldl_bestStep_some (loc : LatLon) (geo : String → Option LatLon) :
    ∀ (l : List Node) (acc : Option (String × ℝ)) (b : String × ℝ),
      l.foldl (bestStep loc geo) acc = some b →
      (∃ n ∈ l, nodeKey n = b.1) ∨ acc = some b := by
  intro l
  induction l with
  | nil => intro acc b h; right; exact h
  | cons n rest ih =>
    intro acc b h
    rw [List.foldl_cons] at h
    rcases ih _ b h with ⟨n', hn', hk⟩ | hacc
    · exact .inl ⟨n', List.mem_cons_of_mem _ hn', hk⟩
    · unfold bestStep at hacc
      cases hg : geo (nodeKey n) with
      | none => rw [hg] at hacc; exact .inr hacc
      | some ll =>
        rw [hg] at hacc
        cases acc with
        | none =>
          injection hacc with hb
          exact .inl ⟨n, List.mem_cons_self n rest, by rw [← hb]⟩
        | some b0 =>
          dsimp only at hacc
          split at hacc
          · injection hacc with hb
            exact .inl ⟨n, List.mem_cons_self n rest, by rw [← hb]⟩
          · exact .inr hacc

/-- C10: whenever selection returns a defined value, that value is the
Node Key of some node of the pool — regardless of what the node cache
contains — and it returns `undefined` exactly on the empty pool. -/
theorem c10_pick_returns_pool_key (nodes : List Node)
    (geo : String → Option LatLon) (target selfGeo : Option LatLon) :
    (∃ k, pickBestNodeIdentifier nodes geo target selfGeo = some k ∧
        ∃ n ∈ nodes, nodeKey n = k) ∨
      (pickBestNodeIdentifier nodes geo target selfGeo = none ∧ nodes = []) := by
  cases nodes with
  | nil => exact .inr ⟨rfl, rfl⟩
  | cons n0 rest =>
    left
    unfold pickBestNodeIdentifier
    rw [if_neg (by simp : ¬((n0 :: rest).isEmpty = true))]
    cases hloc : (match target with | some t => some t | none => selfGeo) with
    | none =>
      exact ⟨nodeKey n0, rfl, n0, List.mem_cons_self n0 rest, rfl⟩
    | some loc =>
      dsimp only
      cases hfold : (n0 :: rest).foldl (bestStep loc geo) none with
      | none =>
        exact ⟨nodeKey n0, rfl, n0, List.mem_cons_self n0 rest, rfl⟩
      | some b =>
        rcases foldl_bestStep_some loc geo (n0 :: rest) none b hfold with ⟨n', hn', hk⟩ | habs
        · exact ⟨b.1, rfl, n', hn', hk⟩
        · exact Option.noConfusion habs

/-- When no visited node has a cached coordinate the selection loop leaves
its accumulator untouched. -/
theorem foldl_bestStep_none (loc : LatLon) (geo : String → Option LatLon) :
    ∀ (l : List Node), (∀ n ∈ l, geo (nodeKey n) = none) →
      ∀ acc, l.foldl (bestStep loc geo) acc = acc := by
  intro l
  induction l with
  | nil => intro _ acc; rfl
  | cons n rest ih =>
    intro h acc
    rw [List.foldl_cons]
    have hstep : bestStep loc geo acc n = acc := by
      unfold bestStep; rw [h n (List.mem_cons_self _ _)]
    rw [hstep]
    exact ih (fun m hm => h m (List.mem_cons_of_mem _ hm)) acc

/-- C6: on a non-empty pool none of whose Node Keys has a cached
coordinate, selection returns the first node's Key (identifier if
present, else host), whatever target could be obtained; and for any cache
the same registration-order fallback is returned when neither a target
nor a self-location coordinate is obtainable. -/
theorem c6_cold_cache_first_node (n0 : Node) (rest : List Node)
    (geo geo2 : String → Option LatLon) (target selfGeo : Option LatLon)
    (h : ∀ n ∈ n0 :: rest, geo (nodeKey n) = none) :
    pickBestNodeIdentifier (n0 :: rest) geo target selfGeo = some (nodeKey n0) ∧
      pickBestNodeIdentifier (n0 :: rest) geo2 none none = some (nodeKey n0) := by
  constructor
  · unfold pickBestNodeIdentifier
    rw [if_neg (by simp : ¬((n0 :: rest).isEmpty = true))]
    cases hloc : (match target with | some t => some t | none => selfGeo) with
    | none => rfl
    | some loc =>
      dsimp only
      rw [foldl_bestStep_none loc geo _ h none]
      rfl
  · rfl

/-- C6 witness: a two-node pool with an empty node cache returns the first
node's Key, here the identifier "A". -/
theorem c6_cold_cache_first_node_witness :
    (∀ n ∈ [Node.mk (some "A") "host-a", Node.mk none "host-b"],
        (fun _ => (none : Option LatLon)) (nodeKey n) = none) ∧
      (pickBestNodeIdentifier [Node.mk (some "A") "host-a", Node.mk none "host-b"]
          (fun _ => none) none (some ⟨3, 4⟩) = some "A" ∧
        pickBestNodeIdentifier [Node.mk (some "A") "host-a", Node.mk none "host-b"]
          (fun _ => none) none none = some "A") :=
  ⟨fun _ _ => rfl,
    c6_cold_cache_first_node (Node.mk (some "A") "host-a") [Node.mk none "host-b"]
      (fun _ => none) (fun _ => none) none (some ⟨3, 4⟩) (fun _ _ => rfl)⟩

/-- The first element surviving `dropWhile` fails the predicate. -/
theorem head_dropWhile_false {α : Type} (p : α → Bool) :
    ∀ (l : List α) (x : α), (l.dropWhile p).head? = some x → p x = false := by
  intro l
  induction l with
  | nil => intro x h; simp at h
  | cons a t ih =>
    intro x h
    rw [List.dropWhile_cons] at h
    split at h
    · exact ih x h
    · next hp =>
      simp only [List.head?_cons, Option.some.injEq] at h
      subst h
      exact Bool.eq_false_iff.mpr hp

/-- The function `stripTrailingDigits` removes exactly a trailing run of digits: the
input is the output followed by an all-digit suffix, and the output does
not end in a digit. -/
theorem stripTrailingDigits_spec (s : String) :
    ∃ ds : String, s = stripTrailingDigits s ++ ds ∧
      (∀ ch ∈ ds.data, ch.isDigit) ∧
      (∀ ch, (stripTrailingDigits s).data.getLast? = some ch → ch.isDigit = false) := by
  refine ⟨⟨(s.data.reverse.takeWhile Char.isDigit).reverse⟩, ?_, ?_, ?_⟩
  · have hdata : s.data =
        (s.data.reverse.dropWhile Char.isDigit).reverse ++
          (s.data.reverse.takeWhile Char.isDigit).reverse := by
      calc s.data = s.data.reverse.reverse := (List.reverse_reverse _).symm
        _ = ((s.data.reverse.takeWhile Char.isDigit) ++
              (s.data.reverse.dropWhile Char.isDigit)).reverse := by
            rw [List.takeWhile_append_dropWhile]
        _ = _ := by rw [List.reverse_append]
    apply String.ext
    rw [String.data_append]
    exact hdata
  · intro ch hch
    exact List.mem_takeWhile_imp (List.mem_reverse.mp hch)
  · intro ch hch
    have : (s.data.reverse.dropWhile Char.isDigit).head? = some ch := by
      rw [← List.getLast?_reverse]
      exact hch
    exact head_dropWhile_false Char.isDigit _ ch this

/-- C5: the endpoint region parser strips the port, splits the hostname on
dots, yields "unresolved" for fewer than three segments, and otherwise
returns the first segment with its trailing digit run removed (empty
remainder meaning "unresolved"); with the three example inputs of the
specification. -/
theorem c5_parse_region_endpoint :
    parseDiscordRegionFromEndpoint "us-east123.discord.media:443" = some "us-east" ∧
      parseDiscordRegionFromEndpoint "localhost" = none ∧
      parseDiscordRegionFromEndpoint "a.b" = none ∧
      (∀ e : String,
        (jsSplit ((jsSplit e ':').headD "") '.').length < 3 →
          parseDiscordRegionFromEndpoint e = none) ∧
      (∀ e : String,
        3 ≤ (jsSplit ((jsSplit e ':').headD "") '.').length →
          parseDiscordRegionFromEndpoint e =
            (if stripTrailingDigits ((jsSplit ((jsSplit e ':').headD "") '.').headD "") = ""
              then none
              else
                some (stripTrailingDigits ((jsSplit ((jsSplit e ':').headD "") '.').headD "")))) ∧
      (∀ s : String, ∃ ds : String, s = stripTrailingDigits s ++ ds ∧
        (∀ ch ∈ ds.data, ch.isDigit) ∧
        (∀ ch, (stripTrailingDigits s).data.getLast? = some ch → ch.isDigit = false)) := by
  refine ⟨?_, rfl, rfl, ?_, ?_, stripTrailingDigits_spec⟩
  · rfl
  · intro e h
    simp only [parseDiscordRegionFromEndpoint]
    rw [if_pos h]
  · intro e h
    simp only [parseDiscordRegionFromEndpoint]
    rw [if_neg (by omega)]

/-- Background cache writes never touch the manager flag or the captured
entry points, so every state reachable after `load` still holds the
pre-patch captures. -/
theorem engineReach_load_inv {F G : Type} (patchedC : F) (patchedU : G)
    (refreshEnabled : Bool) (s0 s : EngineState F G)
    (h : EngineReach (load patchedC patchedU refreshEnabled s0) s) :
    s.hasManager = true ∧ s.originalCreate = some s0.managerCreate ∧
      s.originalUpdateVoiceState = some s0.managerUpdateVoiceState := by
  induction h with
  | refl => exact ⟨rfl, rfl, rfl⟩
  | tail _ hstep ih =>
    obtain ⟨h1, h2, h3⟩ := ih
    cases hstep with
    | nodeWrite k v => exact ⟨h1, h2, h3⟩
    | guildWrite k v => exact ⟨h1, h2, h3⟩
    | selfWrite v => exact ⟨h1, h2, h3⟩

/-- C8: from every state reachable after `load` by background cache
writes, `unload` stops the refresh timer and restores the two manager
entry points to the exact functions captured before patching, and changes
nothing else — in particular the `nodeGeo`, `guildGeo` and `selfGeo`
caches keep exactly the entries they held before the unload. -/
theorem c8_unload_restores_and_preserves {F G : Type} (patchedC : F)
    (patchedU : G) (refreshEnabled : Bool) (s0 s : EngineState F G)
    (h : EngineReach (load patchedC patchedU refreshEnabled s0) s) :
    unload s =
      { s with
          timerActive := false
          managerCreate := s0.managerCreate
          managerUpdateVoiceState := s0.managerUpdateVoiceState } := by
  obtain ⟨h1, h2, h3⟩ := engineReach_load_inv patchedC patchedU refreshEnabled s0 s h
  cases s with
  | mk mc mu hm oc ou ta ng gg sg =>
    simp only at h1 h2 h3
    subst h1 h2 h3
    rfl

/-- C8 witness: one load followed by one guild-cache write; unload stops
the timer, restores the captured entry points 10 and 20, and keeps the
written cache entry. -/
theorem c8_unload_witness :
    EngineReach (load (F := ℕ) (G := ℕ) 11 21 true ⟨10, 20, false, none, none, false, [], [], none⟩)
        { load (F := ℕ) (G := ℕ) 11 21 true ⟨10, 20, false, none, none, false, [], [], none⟩ with
            guildGeo := mapSet [] "g" ⟨0, 10⟩ } ∧
      unload { load (F := ℕ) (G := ℕ) 11 21 true ⟨10, 20, false, none, none, false, [], [], none⟩ with
            guildGeo := mapSet [] "g" ⟨0, 10⟩ } =
        { load (F := ℕ) (G := ℕ) 11 21 true ⟨10, 20, false, none, none, false, [], [], none⟩ with
            guildGeo := mapSet [] "g" ⟨0, 10⟩
            timerActive := false
            managerCreate := 10
            managerUpdateVoiceState := 20 } := by
  have hr : EngineReach
      (load (F := ℕ) (G := ℕ) 11 21 true ⟨10, 20, false, none, none, false, [], [], none⟩)
      { load (F := ℕ) (G := ℕ) 11 21 true ⟨10, 20, false, none, none, false, [], [], none⟩ with
          guildGeo := mapSet [] "g" ⟨0, 10⟩ } :=
    Relation.ReflTransGen.single
      (CacheStep.guildWrite (load 11 21 true ⟨10, 20, false, none, none, false, [], [], none⟩) "g" ⟨0, 10⟩)
  exact ⟨hr, c8_unload_restores_and_preserves 11 21 true _ _ hr⟩

/-- C7 counterexample: a truthy primitive payload from the first provider
(the bare JSON number 5) makes `geoByHost` throw a TypeError out of its
own boundary instead of treating the malformed payload as attempt failure
— it neither returns unresolved nor falls through to the second
provider's well-formed success payload. -/
theorem c7_counterexample_primitive_payload_throws :
    geoByHost (some (Json.num 5))
        (some (Json.obj [("status", Json.str "success"), ("lat", Json.num 1), ("lon", Json.num 2)])) =
      Except.error "TypeError: cannot use in operator to search for success in a primitive" := by
  rfl

/-- A provider attempt over a fetch outcome whose payload is falsy or
object-like never throws. -/
theorem providerAttempt_safe (r : Option Json) (h : safeForIn r = true) :
    providerAttempt r = .fallthrough ∨ ∃ c, providerAttempt r = .found c := by
  cases r with
  | none => exact .inl rfl
  | some j =>
    by_cases ht : j.truthy = true
    · have hobj : j.isObjectLike = true := by
        simp only [safeForIn, Bool.or_eq_true, Bool.not_eq_true'] at h
        rcases h with h | h
        · rw [h] at ht; exact absurd ht (by simp)
        · exact h
      simp only [providerAttempt, ht, hobj, Bool.not_true, Bool.false_eq_true, if_false]
      split
      · exact .inr ⟨_, rfl⟩
      · split
        · exact .inr ⟨_, rfl⟩
        · exact .inl rfl
    · have ht' : j.truthy = false := Bool.eq_false_iff.mpr ht
      simp only [providerAttempt, ht', Bool.not_false, if_true]
      exact .inl trivial

/-- C7 (amended): for transport failures and for payloads that are falsy
or object-like, `geoByHost` returns a coordinate or unresolved and lets
no exception escape; a truthy primitive payload is the one exception,
raising a TypeError to the caller (absorbed there by
`resolveNodeLocation`'s catch) instead of falling through. -/
theorem c7_geoByHost_fail_soft (r1 r2 : Option Json)
    (h1 : safeForIn r1 = true) (h2 : safeForIn r2 = true) :
    ∃ v, geoByHost r1 r2 = Except.ok v := by
  unfold geoByHost
  rcases providerAttempt_safe r1 h1 with ha | ⟨c, ha⟩
  · rw [ha]
    rcases providerAttempt_safe r2 h2 with hb | ⟨c, hb⟩
    · rw [hb]; exact ⟨none, rfl⟩
    · rw [hb]; exact ⟨some c, rfl⟩
  · rw [ha]; exact ⟨some c, rfl⟩

/-- C7 witness: a failed first fetch and a well-formed ip-api payload
yield a coordinate without any exception. -/
theorem c7_geoByHost_fail_soft_witness :
    safeForIn none = true ∧
      safeForIn (some (Json.obj
        [("status", Json.str "success"), ("lat", Json.num 1), ("lon", Json.num 2)])) = true ∧
      ∃ v, geoByHost none (some (Json.obj
          [("status", Json.str "success"), ("lat", Json.num 1), ("lon", Json.num 2)])) =
        Except.ok v :=
  ⟨rfl, rfl, c7_geoByHost_fail_soft none
    (some (Json.obj [("status", Json.str "success"), ("lat", Json.num 1), ("lon", Json.num 2)]))
    rfl rfl⟩

/-- On [-π/2, π/2] the clamped arcsin-of-square-root in the haversine
formula recovers the absolute half-angle. -/
theorem arcsin_min_one_sqrt_sin_sq (θ : ℝ) (h1 : -(Real.pi / 2) ≤ θ)
    (h2 : θ ≤ Real.pi / 2) :
    Real.arcsin (min 1 (Real.sqrt (Real.sin θ * Real.sin θ))) = |θ| := by
  have hs : Real.sqrt (Real.sin θ * Real.sin θ) = |Real.sin θ| := by
    rw [← sq]
    exact Real.sqrt_sq_eq_abs _
  have habs : |Real.sin θ| ≤ 1 := abs_le.mpr ⟨Real.neg_one_le_sin θ, Real.sin_le_one θ⟩
  rw [hs, min_eq_right habs]
  rcases le_or_lt 0 θ with hθ | hθ
  · have hsin : 0 ≤ Real.sin θ :=
      Real.sin_nonneg_of_nonneg_of_le_pi hθ (by linarith [Real.pi_pos])
    rw [abs_of_nonneg hsin, Real.arcsin_sin h1 h2, abs_of_nonneg hθ]
  · have hsin : Real.sin θ ≤ 0 :=
      Real.sin_nonpos_of_nonnpos_of_neg_pi_le hθ.le (by linarith [Real.pi_pos])
    rw [abs_of_nonpos hsin, ← Real.sin_neg,
      Real.arcsin_sin (by linarith) (by linarith), abs_of_neg hθ]

/-- Along the equator the haversine distance is proportional to the
absolute longitude difference (for gaps of at most 180 degrees). -/
theorem haversineKm_equator (x y : ℝ) (h : |y - x| ≤ 180) :
    haversineKm ⟨0, x⟩ ⟨0, y⟩ = 6371 * (|y - x| * Real.pi) / 180 := by
  have hπ := Real.pi_pos
  have habs : |(y - x) * Real.pi / 180 / 2| = |y - x| * Real.pi / 360 := by
    rw [abs_div, abs_div, abs_mul, abs_of_pos hπ]
    norm_num
    ring
  have hb : |(y - x) * Real.pi / 180 / 2| ≤ Real.pi / 2 := by
    rw [habs]
    have hm : |y - x| * Real.pi ≤ 180 * Real.pi := mul_le_mul_of_nonneg_right h hπ.le
    linarith
  have h1 : -(Real.pi / 2) ≤ (y - x) * Real.pi / 180 / 2 := by
    have := (abs_le.mp hb).1
    linarith
  have h2 : (y - x) * Real.pi / 180 / 2 ≤ Real.pi / 2 := (abs_le.mp hb).2
  show 2 * 6371 * Real.arcsin (min 1 (Real.sqrt
      (Real.sin (toRad ((0:ℝ) - 0) / 2) * Real.sin (toRad ((0:ℝ) - 0) / 2) +
        Real.cos (toRad 0) * Real.cos (toRad 0) *
          Real.sin (toRad (y - x) / 2) * Real.sin (toRad (y - x) / 2)))) =
    6371 * (|y - x| * Real.pi) / 180
  rw [show ((0:ℝ) - 0) = 0 by norm_num]
  unfold toRad
  rw [show (0:ℝ) * Real.pi / 180 = 0 by ring]
  rw [show (0:ℝ) / 2 = 0 by norm_num, Real.sin_zero, Real.cos_zero]
  rw [show (0:ℝ) * 0 + 1 * 1 * Real.sin ((y - x) * Real.pi / 180 / 2) *
      Real.sin ((y - x) * Real.pi / 180 / 2) =
    Real.sin ((y - x) * Real.pi / 180 / 2) * Real.sin ((y - x) * Real.pi / 180 / 2) by ring]
  rw [arcsin_min_one_sqrt_sin_sq _ h1 h2, habs]
  ring

/-- C4 counterexample: the two distinct valid coordinates (90, 0) and
(90, 10) — both at the north pole — have haversine distance exactly zero,
so zero distance does not imply equal lat/lon pairs. -/
theorem c4_counterexample_pole_distance_zero :
    haversineKm ⟨90, 0⟩ ⟨90, 10⟩ = 0 ∧ (⟨90, 0⟩ : LatLon) ≠ (⟨90, 10⟩ : LatLon) := by
  constructor
  · show 2 * 6371 * Real.arcsin (min 1 (Real.sqrt
        (Real.sin (toRad ((90:ℝ) - 90) / 2) * Real.sin (toRad ((90:ℝ) - 90) / 2) +
          Real.cos (toRad 90) * Real.cos (toRad 90) *
            Real.sin (toRad ((10:ℝ) - 0) / 2) * Real.sin (toRad ((10:ℝ) - 0) / 2)))) = 0
    unfold toRad
    rw [show ((90:ℝ) - 90) * Real.pi / 180 = 0 by ring,
      show (90:ℝ) * Real.pi / 180 = Real.pi / 2 by ring,
      show (0:ℝ) / 2 = 0 by norm_num, Real.sin_zero, Real.cos_pi_div_two]
    rw [show (0:ℝ) * 0 + 0 * 0 * Real.sin (((10:ℝ) - 0) * Real.pi / 180 / 2) *
        Real.sin (((10:ℝ) - 0) * Real.pi / 180 / 2) = 0 by ring]
    rw [Real.sqrt_zero, min_eq_right (le_refl 0 |>.trans zero_le_one), Real.arcsin_zero]
    ring
  · intro h
    have := congrArg LatLon.lon h
    norm_num at this

/-- C4 (amended): away from the poles and from the -180/180 antimeridian
seam — latitudes strictly between -90 and 90, longitudes in (-180, 180] —
the haversine distance is zero exactly when the two coordinates are
equal. -/
theorem c4_haversine_zero_iff_interior (a b : LatLon)
    (ha : -90 < a.lat ∧ a.lat < 90 ∧ -180 < a.lon ∧ a.lon ≤ 180)
    (hb : -90 < b.lat ∧ b.lat < 90 ∧ -180 < b.lon ∧ b.lon ≤ 180) :
    haversineKm a b = 0 ↔ a = b := by
  obtain ⟨ha1, ha2, ha3, ha4⟩ := ha
  obtain ⟨hb1, hb2, hb3, hb4⟩ := hb
  have hπ := Real.pi_pos
  constructor
  · intro h0
    unfold haversineKm toRad at h0
    set x := (b.lat - a.lat) * Real.pi / 180 / 2 with hxdef
    set y := (b.lon - a.lon) * Real.pi / 180 / 2 with hydef
    set c1 := Real.cos (a.lat * Real.pi / 180) with hc1def
    set c2 := Real.cos (b.lat * Real.pi / 180) with hc2def
    have hc1 : 0 < c1 := by
      rw [hc1def]
      apply Real.cos_pos_of_mem_Ioo
      constructor
      · nlinarith [mul_pos (show (0:ℝ) < a.lat + 90 by linarith) hπ]
      · nlinarith [mul_pos (show (0:ℝ) < 90 - a.lat by linarith) hπ]
    have hc2 : 0 < c2 := by
      rw [hc2def]
      apply Real.cos_pos_of_mem_Ioo
      constructor
      · nlinarith [mul_pos (show (0:ℝ) < b.lat + 90 by linarith) hπ]
      · nlinarith [mul_pos (show (0:ℝ) < 90 - b.lat by linarith) hπ]
    have hterm2 : 0 ≤ c1 * c2 * Real.sin y * Real.sin y := by
      have he : c1 * c2 * Real.sin y * Real.sin y =
          (c1 * c2) * (Real.sin y * Real.sin y) := by ring
      rw [he]
      exact mul_nonneg (mul_pos hc1 hc2).le (mul_self_nonneg _)
    have hterm1 : 0 ≤ Real.sin x * Real.sin x := mul_self_nonneg _
    have harc : Real.arcsin (min 1 (Real.sqrt
        (Real.sin x * Real.sin x + c1 * c2 * Real.sin y * Real.sin y))) = 0 := by
      rcases mul_eq_zero.mp h0 with h | h
      · norm_num at h
      · exact h
    have hge : (0:ℝ) ≤ min 1 (Real.sqrt
        (Real.sin x * Real.sin x + c1 * c2 * Real.sin y * Real.sin y)) :=
      le_min zero_le_one (Real.sqrt_nonneg _)
    have hle : min 1 (Real.sqrt
        (Real.sin x * Real.sin x + c1 * c2 * Real.sin y * Real.sin y)) ≤ 1 :=
      min_le_left _ _
    have hmin : min 1 (Real.sqrt
        (Real.sin x * Real.sin x + c1 * c2 * Real.sin y * Real.sin y)) = 0 := by
      have hs := Real.sin_arcsin (by linarith) hle
      rw [harc, Real.sin_zero] at hs
      exact hs.symm
    have hsqrt : Real.sqrt
        (Real.sin x * Real.sin x + c1 * c2 * Real.sin y * Real.sin y) = 0 := by
      rcases min_eq_iff.mp hmin with ⟨h1e, _⟩ | ⟨h2e, _⟩
      · norm_num at h1e
      · exact h2e
    have hH : Real.sin x * Real.sin x + c1 * c2 * Real.sin y * Real.sin y = 0 :=
      le_antisymm (Real.sqrt_eq_zero'.mp hsqrt) (by linarith)
    have hsx : Real.sin x = 0 := mul_self_eq_zero.mp (by linarith)
    have hsy : Real.sin y = 0 := by
      have h2 : c1 * c2 * Real.sin y * Real.sin y = 0 := by linarith
      have h2e : (c1 * c2) * (Real.sin y * Real.sin y) = 0 := by
        rw [show (c1 * c2) * (Real.sin y * Real.sin y) =
          c1 * c2 * Real.sin y * Real.sin y by ring]
        exact h2
      rcases mul_eq_zero.mp h2e with h3 | h3
      · exact absurd h3 (mul_pos hc1 hc2).ne'
      · exact mul_self_eq_zero.mp h3
    have hx0 : x = 0 := by
      have hx1 : -Real.pi < x := by
        rw [hxdef]
        nlinarith [mul_pos (show (0:ℝ) < b.lat - a.lat + 180 by linarith) hπ]
      have hx2 : x < Real.pi := by
        rw [hxdef]
        nlinarith [mul_pos (show (0:ℝ) < 180 - (b.lat - a.lat) by linarith) hπ]
      exact (Real.sin_eq_zero_iff_of_lt_of_lt hx1 hx2).mp hsx
    have hy0 : y = 0 := by
      have hy1 : -Real.pi < y := by
        rw [hydef]
        nlinarith [mul_pos (show (0:ℝ) < b.lon - a.lon + 360 by linarith) hπ]
      have hy2 : y < Real.pi := by
        rw [hydef]
        nlinarith [mul_pos (show (0:ℝ) < 360 - (b.lon - a.lon) by linarith) hπ]
      exact (Real.sin_eq_zero_iff_of_lt_of_lt hy1 hy2).mp hsy
    have hlat : b.lat = a.lat := by
      rw [hxdef] at hx0
      have hprod : (b.lat - a.lat) * Real.pi = 0 := by linarith
      rcases mul_eq_zero.mp hprod with h | h
      · linarith
      · exact absurd h hπ.ne'
    have hlon : b.lon = a.lon := by
      rw [hydef] at hy0
      have hprod : (b.lon - a.lon) * Real.pi = 0 := by linarith
      rcases mul_eq_zero.mp hprod with h | h
      · linarith
      · exact absurd h hπ.ne'
    exact LatLon.ext hlat.symm hlon.symm
  · rintro rfl
    unfold haversineKm toRad
    rw [show (a.lat - a.lat : ℝ) = 0 by ring, show (a.lon - a.lon : ℝ) = 0 by ring]
    rw [show (0:ℝ) * Real.pi / 180 = 0 by ring, show (0:ℝ) / 2 = 0 by norm_num,
      Real.sin_zero]
    rw [show (0:ℝ) * 0 + Real.cos (a.lat * Real.pi / 180) *
        Real.cos (a.lat * Real.pi / 180) * 0 * 0 = 0 by ring]
    rw [Real.sqrt_zero, min_eq_right (le_refl (0:ℝ) |>.trans zero_le_one),
      Real.arcsin_zero]
    ring

/-- C4 witness: the origin coordinate is within the amended ranges and is
at distance zero from itself. -/
theorem c4_haversine_zero_iff_interior_witness :
    ((-90 < (0:ℝ) ∧ (0:ℝ) < 90 ∧ -180 < (0:ℝ) ∧ (0:ℝ) ≤ 180) ∧
      (haversineKm ⟨0, 0⟩ ⟨0, 0⟩ = 0 ↔ (⟨0, 0⟩ : LatLon) = ⟨0, 0⟩)) :=
  ⟨⟨by norm_num, by norm_num, by norm_num, by norm_num⟩,
    c4_haversine_zero_iff_interior ⟨0, 0⟩ ⟨0, 0⟩
      ⟨by norm_num, by norm_num, by norm_num, by norm_num⟩
      ⟨by norm_num, by norm_num, by norm_num, by norm_num⟩⟩

/-- Target of the three-node selection test: T = (0, 1). -/
noncomputable def tC3 : LatLon := ⟨0, 1⟩

/-- Cached coordinate of node A: (0, 0). -/
noncomputable def cA : LatLon := ⟨0, 0⟩

/-- Cached coordinate of node B: (0, 10). -/
noncomputable def cB : LatLon := ⟨0, 10⟩

/-- Cached coordinate of node C: (0, 90). -/
noncomputable def cC : LatLon := ⟨0, 90⟩

/-- Node A of the three-node pool. -/
def nA : Node := ⟨some "A", "a.example.net"⟩

/-- Node B of the three-node pool. -/
def nB : Node := ⟨some "B", "b.example.net"⟩

/-- Node C of the three-node pool. -/
def nC : Node := ⟨some "C", "c.example.net"⟩

/-- The node cache holding the three nodes' coordinates. -/
noncomputable def geoC3 : String → Option LatLon := fun k =>
  if k = "A" then some cA else if k = "B" then some cB
  else if k = "C" then some cC else none

/-- T is strictly closer to A than to B. -/
theorem distC3_AB : haversineKm tC3 cA < haversineKm tC3 cB := by
  have eA : haversineKm tC3 cA = 6371 * (|(0:ℝ) - 1| * Real.pi) / 180 :=
    haversineKm_equator 1 0 (by rw [show (0:ℝ) - 1 = -1 by norm_num, abs_neg, abs_one]; norm_num)
  have eB : haversineKm tC3 cB = 6371 * (|(10:ℝ) - 1| * Real.pi) / 180 :=
    haversineKm_equator 1 10 (by rw [show (10:ℝ) - 1 = 9 by norm_num, abs_of_nonneg]; norm_num; norm_num)
  rw [eA, eB, show |(0:ℝ) - 1| = 1 by rw [show (0:ℝ) - 1 = -1 by norm_num, abs_neg, abs_one],
    show |(10:ℝ) - 1| = 9 by rw [show (10:ℝ) - 1 = 9 by norm_num]; exact abs_of_nonneg (by norm_num)]
  have hπ := Real.pi_pos
  linarith

/-- T is strictly closer to A than to C. -/
theorem distC3_AC : haversineKm tC3 cA < haversineKm tC3 cC := by
  have eA : haversineKm tC3 cA = 6371 * (|(0:ℝ) - 1| * Real.pi) / 180 :=
    haversineKm_equator 1 0 (by rw [show (0:ℝ) - 1 = -1 by norm_num, abs_neg, abs_one]; norm_num)
  have eC : haversineKm tC3 cC = 6371 * (|(90:ℝ) - 1| * Real.pi) / 180 :=
    haversineKm_equator 1 90 (by rw [show (90:ℝ) - 1 = 89 by norm_num, abs_of_nonneg]; norm_num; norm_num)
  rw [eA, eC, show |(0:ℝ) - 1| = 1 by rw [show (0:ℝ) - 1 = -1 by norm_num, abs_neg, abs_one],
    show |(90:ℝ) - 1| = 89 by rw [show (90:ℝ) - 1 = 89 by norm_num]; exact abs_of_nonneg (by norm_num)]
  have hπ := Real.pi_pos
  linarith

/-- T is strictly closer to B than to C. -/
theorem distC3_BC : haversineKm tC3 cB < haversineKm tC3 cC := by
  have eB : haversineKm tC3 cB = 6371 * (|(10:ℝ) - 1| * Real.pi) / 180 :=
    haversineKm_equator 1 10 (by rw [show (10:ℝ) - 1 = 9 by norm_num, abs_of_nonneg]; norm_num; norm_num)
  have eC : haversineKm tC3 cC = 6371 * (|(90:ℝ) - 1| * Real.pi) / 180 :=
    haversineKm_equator 1 90 (by rw [show (90:ℝ) - 1 = 89 by norm_num, abs_of_nonneg]; norm_num; norm_num)
  rw [eB, eC, show |(10:ℝ) - 1| = 9 by rw [show (10:ℝ) - 1 = 9 by norm_num]; exact abs_of_nonneg (by norm_num),
    show |(90:ℝ) - 1| = 89 by rw [show (90:ℝ) - 1 = 89 by norm_num]; exact abs_of_nonneg (by norm_num)]
  have hπ := Real.pi_pos
  linarith

/-- C3: with cached coordinates A = (0,0), B = (0,10), C = (0,90) and
target T = (0,1), selection returns node A's Key for every registration
order of the three-node pool. -/
theorem c3_pick_nearest_all_orderings :
    pickBestNodeIdentifier [nA, nB, nC] geoC3 (some tC3) none = some "A" ∧
      pickBestNodeIdentifier [nA, nC, nB] geoC3 (some tC3) none = some "A" ∧
      pickBestNodeIdentifier [nB, nA, nC] geoC3 (some tC3) none = some "A" ∧
      pickBestNodeIdentifier [nB, nC, nA] geoC3 (some tC3) none = some "A" ∧
      pickBestNodeIdentifier [nC, nA, nB] geoC3 (some tC3) none = some "A" ∧
      pickBestNodeIdentifier [nC, nB, nA] geoC3 (some tC3) none = some "A" := by
  have hAB := distC3_AB
  have hAC := distC3_AC
  have hBC := distC3_BC
  have nBA : ¬ haversineKm tC3 cB < haversineKm tC3 cA := lt_asymm hAB
  have nCA : ¬ haversineKm tC3 cC < haversineKm tC3 cA := lt_asymm hAC
  have nCB : ¬ haversineKm tC3 cC < haversineKm tC3 cB := lt_asymm hBC
  refine ⟨?_, ?_, ?_, ?_, ?_, ?_⟩ <;>
    simp [pickBestNodeIdentifier, bestStep, nodeKey, geoC3, nA, nB, nC,
      hAB, hAC, hBC, nBA, nCA, nCB]
